import Mathlib

/-!
Verification of the backtor-restic worker (src/main.go) against its
natural-language specification.

The Go program is shallowly embedded: external command execution
(`ExecShellf`, `ExecShellfTimeout`) and the filesystem probe (`os.Stat`)
are oracles packaged in a `World`; each Go function becomes a Lean
function returning its outcome together with the list of observable
events it performed (mutex lock/unlock, shell invocations, stat calls).
Go's `defer repoLock.Unlock()` runs on every exit path, panics included,
so the lock/unlock bracketing is applied to the already-materialized
body outcome.  Runtime panics (failed type assertions, out-of-range
indexing) are an explicit `Res.panicked` outcome.
-/

namespace BacktorRestic

/-- A dynamically-typed value of a task's `InputData` map
(`map[string]interface\x7b\x7d` in the Go source).  Strings and JSON
numbers are the only shapes the program reads; `vBool` stands for any
other shape. -/
inductive Value
  | vStr (s : String)
  | vNum (n : Int)
  | vBool (b : Bool)
  deriving DecidableEq, Repr

/-- A task's input payload, `t.InputData` in the source. -/
abbrev InputData := List (String × Value)

/-- Go map lookup `t.InputData[key]` with its `ok` flag, on the
association-list model of the map. -/
def lookupField : InputData → String → Option Value
  | [], _ => none
  | (k, v) :: rest, key => if k = key then some v else lookupField rest key

/-- Outcome of a Go computation: a value, a returned `error`, or a
runtime panic. -/
inductive Res (α : Type)
  | ok (a : α)
  | err (msg : String)
  | panicked (msg : String)
  deriving DecidableEq, Repr

/-- Go's unchecked type assertion `v.(string)`: panics unless the
dynamic value is a string. -/
def asString : Value → Res String
  | .vStr s => .ok s
  | _ => .panicked "interface conversion: value is not a string"

/-- Go's unchecked type assertion `v.(float64)`: panics unless the
dynamic value is a number.  Numbers are modelled as `Int` (the program
only ever truncates the float with `int(timeout)`). -/
def asNum : Value → Res Int
  | .vNum n => .ok n
  | _ => .panicked "interface conversion: value is not a number"

/-- Observable actions of the program: mutex operations on `repoLock`,
shell command executions (with or without a timeout), and the
`os.Stat` existence probe. -/
inductive Event
  | lock
  | unlock
  | shell (cmd : String)
  | shellTimeout (sec : Int) (cmd : String)
  | stat (path : String)
  deriving DecidableEq, Repr

/-- The external environment: results of shell commands and the
filesystem.  `exec` models `ExecShellf`, `execTimeout` models
`ExecShellfTimeout` (first argument the timeout in seconds), and
`dirExists p = false` models `os.IsNotExist(err)` after `os.Stat(p)`. -/
structure World where
  exec : String → Except String String
  execTimeout : Int → String → Except String String
  dirExists : String → Bool

/-- Character class `[0-9a-zA-z]` of the two Go regexes: digits plus the
ASCII range from `A` to `z` (which subsumes `a-z`). -/
def isIDChar (c : Char) : Bool :=
  ('0' ≤ c && c ≤ '9') || ('A' ≤ c && c ≤ 'z')

/-- Match a literal character sequence at the head of the input,
returning the remainder on success. -/
def dropLit : List Char → List Char → Option (List Char)
  | [], cs => some cs
  | _ :: _, [] => none
  | l :: ls, c :: cs => if c = l then dropLit ls cs else none

/-- Try the pattern `snapshot ([0-9a-zA-z]+) saved` anchored at the
current position, returning the captured group.  The capture class
excludes the space that must follow, so the greedy run is the unique
candidate. -/
def extractSavedAt (cs : List Char) : Option (List Char) :=
  match dropLit "snapshot ".data cs with
  | none => none
  | some rest =>
    let run := rest.takeWhile isIDChar
    let rest2 := rest.dropWhile isIDChar
    if run = [] then none
    else match dropLit " saved".data rest2 with
      | none => none
      | some _ => some run

/-- Leftmost match of `snapshot ([0-9a-zA-z]+) saved`, as
`regexp.FindStringSubmatch` returns it (capture group only; the Go code
checks `len(id) == 2`, i.e. that a match with its one group exists). -/
def findSaved : List Char → Option (List Char)
  | [] => none
  | c :: cs =>
    match extractSavedAt (c :: cs) with
    | some r => some r
    | none => findSaved cs

/-- Try the pattern `removed snapshot ([0-9a-zA-z]+)` anchored at the
current position. -/
def extractRemovedAt (cs : List Char) : Option (List Char) :=
  match dropLit "removed snapshot ".data cs with
  | none => none
  | some rest =>
    let run := rest.takeWhile isIDChar
    if run = [] then none else some run

/-- Leftmost match of `removed snapshot ([0-9a-zA-z]+)`. -/
def findRemoved : List Char → Option (List Char)
  | [] => none
  | c :: cs =>
    match extractRemovedAt (c :: cs) with
    | some r => some r
    | none => findRemoved cs

/-- `FindStringSubmatch` for the backup-confirmation regex, on `String`. -/
def findStringSubmatchSaved (s : String) : Option String :=
  (findSaved s.data).map List.asString

/-- `FindStringSubmatch` for the removal-confirmation regex, on `String`. -/
def findStringSubmatchRemoved (s : String) : Option String :=
  (findRemoved s.data).map List.asString

/-- `task.TaskResult` as the program populates it: output map and
status. -/
structure TaskResult where
  outputData : InputData
  status : String
  deriving DecidableEq, Repr

/-- `createNewBackup` from src/main.go lines 173-201.  The globals
`repoDir` and `sourcePath` are in scope in Go and are passed here as
parameters; note the source directory is built from the literal
`"/backup-source/%s"`, not from `sourcePath`.  When the regex finds no
match the Go code logs a warning but still executes `dataID := id[1]`
on the empty slice, a runtime index-out-of-range panic. -/
def createNewBackup (w : World) (repoDir sourcePath : String)
    (backupName : String) (createTimeoutSec : Int) :
    Res (String × Int) × List Event :=
  let sourceDir := "/backup-source/" ++ backupName
  if w.dirExists sourceDir = false then
    (.err ("Source backup dir " ++ sourceDir ++ " doesn't exist"), [.stat sourceDir])
  else
    let cmd := "restic backup " ++ sourceDir ++ " -r " ++ repoDir
    match w.execTimeout createTimeoutSec cmd with
    | .error e => (.err e, [.stat sourceDir, .shellTimeout createTimeoutSec cmd])
    | .ok result =>
      match findStringSubmatchSaved result with
      | none =>
        (.panicked "runtime error: index out of range",
         [.stat sourceDir, .shellTimeout createTimeoutSec cmd])
      | some dataID =>
        (.ok (dataID, 111), [.stat sourceDir, .shellTimeout createTimeoutSec cmd])

/-- Resolution of `createTimeout` in `backupTask` (lines 90-95): one
minute by default, overridden by the `timeoutSeconds` input field via an
unchecked `float64` assertion. -/
def resolveCreateTimeout (input : InputData) : Res Int :=
  match lookupField input "timeoutSeconds" with
  | none => .ok 60
  | some v => asNum v

/-- Body of `backupTask` (lines 80-115), between the `repoLock.Lock()`
and the deferred unlock. -/
def backupTaskBody (w : World) (repoDir sourcePath : String) (input : InputData) :
    Res TaskResult × List Event :=
  match lookupField input "backupName" with
  | none => (.err "'backupName' is required as Input data", [])
  | some bn =>
    match asString bn with
    | .err m => (.err m, [])
    | .panicked m => (.panicked m, [])
    | .ok backupName =>
      match resolveCreateTimeout input with
      | .err m => (.err m, [])
      | .panicked m => (.panicked m, [])
      | .ok createTimeoutSec =>
        let unlockCmd := "restic -r " ++ repoDir ++ " unlock"
        match w.exec unlockCmd with
        | .error e => (.err e, [.shell unlockCmd])
        | .ok _ =>
          match createNewBackup w repoDir sourcePath backupName createTimeoutSec with
          | (.err e, evs) => (.err e, .shell unlockCmd :: evs)
          | (.panicked m, evs) => (.panicked m, .shell unlockCmd :: evs)
          | (.ok (dataID, dataSizeMB), evs) =>
            (.ok ⟨[("dataId", .vStr dataID), ("dataSizeMB", .vNum dataSizeMB)], "COMPLETED"⟩,
             .shell unlockCmd :: evs)

/-- `backupTask` (lines 77-116): lock, run the body, and — modelling
`defer repoLock.Unlock()` — release the lock on every exit path,
returned errors and panics included. -/
def backupTask (w : World) (repoDir sourcePath : String) (input : InputData) :
    Res TaskResult × List Event :=
  let r := backupTaskBody w repoDir sourcePath input
  (r.1, .lock :: (r.2 ++ [.unlock]))

/-- `deleteBackup` (lines 203-224). -/
def deleteBackup (w : World) (repoDir : String) (dataID : String) :
    Res Unit × List Event :=
  let cmd := "restic forget " ++ dataID ++ " -r " ++ repoDir
  match w.exec cmd with
  | .error e => (.err e, [.shell cmd])
  | .ok result =>
    match findStringSubmatchRemoved result with
    | none => (.err "Couldn't find returned id from response", [.shell cmd])
    | some rid =>
      if rid ≠ dataID then
        (.err ("Returned id from forget is different from requested. "
               ++ rid ++ " != " ++ dataID), [.shell cmd])
      else
        (.ok (), [.shell cmd])

/-- Body of `removeTask` (lines 121-151).  Note the source reuses the
`'backupName' is required` message for a missing `dataId`. -/
def removeTaskBody (w : World) (repoDir : String) (input : InputData) :
    Res TaskResult × List Event :=
  match lookupField input "backupName" with
  | none => (.err "'backupName' is required as Input data", [])
  | some bn =>
    match asString bn with
    | .err m => (.err m, [])
    | .panicked m => (.panicked m, [])
    | .ok _backupName =>
      match lookupField input "dataId" with
      | none => (.err "'backupName' is required as Input data", [])
      | some di =>
        match asString di with
        | .err m => (.err m, [])
        | .panicked m => (.panicked m, [])
        | .ok dataID =>
          let unlockCmd := "restic -r " ++ repoDir ++ " unlock"
          match w.exec unlockCmd with
          | .error e => (.err e, [.shell unlockCmd])
          | .ok _ =>
            match deleteBackup w repoDir dataID with
            | (.err e, evs) => (.err e, .shell unlockCmd :: evs)
            | (.panicked m, evs) => (.panicked m, .shell unlockCmd :: evs)
            | (.ok _, evs) => (.ok ⟨[], "COMPLETED"⟩, .shell unlockCmd :: evs)

/-- `removeTask` (lines 118-152) with the deferred unlock applied to
every exit path. -/
def removeTask (w : World) (repoDir : String) (input : InputData) :
    Res TaskResult × List Event :=
  let r := removeTaskBody w repoDir input
  (r.1, .lock :: (r.2 ++ [.unlock]))

/-- Body of `initRepo` (lines 157-170): probe the repository with
`restic snapshots`; on failure attempt `restic init` and propagate its
error. -/
def initRepoBody (w : World) (repoDir : String) : Res Unit × List Event :=
  let checkCmd := "restic snapshots -r " ++ repoDir
  match w.exec checkCmd with
  | .ok _ => (.ok (), [.shell checkCmd])
  | .error _ =>
    let initCmd := "restic init -r " ++ repoDir
    match w.exec initCmd with
    | .error e => (.err e, [.shell checkCmd, .shell initCmd])
    | .ok _ => (.ok (), [.shell checkCmd, .shell initCmd])

/-- `initRepo` (lines 154-171) with the deferred unlock. -/
def initRepo (w : World) (repoDir : String) : Res Unit × List Event :=
  let r := initRepoBody w repoDir
  (r.1, .lock :: (r.2 ++ [.unlock]))

/-- Observable steps of `main` after flag validation. -/
inductive StartupEvent
  | repoEvent (e : Event)
  | startWorker (taskName : String)
  deriving DecidableEq, Repr

/-- Lines 69-74 of `main`: call `initRepo()` — its returned error is
discarded — then unconditionally register the `backup` and `remove`
workers with the conductor client. -/
def mainStartup (w : World) (repoDir : String) : List StartupEvent :=
  let r := initRepo w repoDir
  (r.2.map .repoEvent) ++ [.startWorker "backup", .startWorker "remove"]

/-- Whether the `repoLock` mutex is held after processing a list of
events, starting from the given held/free state. -/
def lockedAfter : Bool → List Event → Bool
  | b, [] => b
  | _, .lock :: rest => lockedAfter true rest
  | _, .unlock :: rest => lockedAfter false rest
  | b, .shell _ :: rest => lockedAfter b rest
  | b, .shellTimeout _ _ :: rest => lockedAfter b rest
  | b, .stat _ :: rest => lockedAfter b rest

/-! Concrete environments used to run the embedded program on specific
scenarios. -/

/-- Environment where every command succeeds, the backup engine prints a
well-formed confirmation line, and every source directory exists. -/
def wOk : World :=
  ⟨fun _ => .ok "", fun _ _ => .ok "snapshot a1b2c3d saved", fun _ => true⟩

/-- Environment where the backup engine exits successfully but its output
carries no `snapshot <id> saved` confirmation line. -/
def wNoMatch : World :=
  ⟨fun _ => .ok "", fun _ _ => .ok "processed 5 files in 0:01", fun _ => true⟩

/-- Environment where every shell command fails (unreachable, uninitializable
repository). -/
def wRepoBroken : World :=
  ⟨fun _ => .error "repo unreachable", fun _ _ => .error "repo unreachable",
   fun _ => false⟩

/-- Environment where `restic forget` reports removal of snapshot
`zzzzzzz`, whatever was requested. -/
def wForgetMismatch : World :=
  ⟨fun _ => .ok "removed snapshot zzzzzzz", fun _ _ => .ok "", fun _ => true⟩

/-- Environment where no source directory exists. -/
def wNoDir : World :=
  ⟨fun _ => .ok "", fun _ _ => .ok "", fun _ => false⟩

/-- Processing a trace that ends in an unlock always leaves the lock
free, whatever happened before. -/
theorem lockedAfter_append_unlock (b : Bool) (l : List Event) :
    lockedAfter b (l ++ [Event.unlock]) = false := by
  induction l generalizing b with
  | nil => rfl
  | cons e rest ih => cases e <;> simp [lockedAfter, ih]

/-- C1 (code bug): a backup whose engine call exits successfully but
whose output has no `snapshot <id> saved` line does not return a
`ResultNotFound` error as the spec requires — after logging the warning
the code indexes the empty submatch slice (`dataID := id[1]`) and
panics with an index-out-of-range runtime error. -/
theorem c1_no_confirmation_panics :
    (backupTask wNoMatch "/backup-repo" "/backup-source"
        [("backupName", Value.vStr "db1")]).1
      = .panicked "runtime error: index out of range" := by decide

/-- C2 (code bug): when both the reachability probe (`restic snapshots`)
and repository initialization (`restic init`) fail, `initRepo` does
return the error, but `main` discards it and still registers the
`backup` and `remove` workers with the task-distribution system —
startup is not aborted as the spec requires. -/
theorem c2_registers_despite_init_failure :
    (initRepo wRepoBroken "/backup-repo").1 = .err "repo unreachable" ∧
    StartupEvent.startWorker "backup" ∈ mainStartup wRepoBroken "/backup-repo" ∧
    StartupEvent.startWorker "remove" ∈ mainStartup wRepoBroken "/backup-repo" := by
  refine ⟨by decide, by decide, by decide⟩

/-- C3 counterexample: a backup request whose `timeoutSeconds` field is
present but bound to a string does not fall back to the 60-second
default and proceed — the unchecked `float64` type assertion panics, so
the operation does not proceed at all. -/
theorem c3_nonnumeric_timeout_panics :
    (backupTask wOk "/backup-repo" "/backup-source"
        [("backupName", Value.vStr "db1"), ("timeoutSeconds", Value.vStr "sixty")]).1
      = .panicked "interface conversion: value is not a number" := by decide

/-- C3 (amended): the resolved timeout is the request's
`timeoutSeconds` when present and numeric, and the default of 60
seconds when the field is absent; when the field is present but
non-numeric the backup operation panics on the unchecked type assertion
instead of applying the default. -/
theorem c3_timeout_resolution (w : World) (rd sp : String) (input : InputData)
    (bn : String)
    (hbn : lookupField input "backupName" = some (Value.vStr bn)) :
    (lookupField input "timeoutSeconds" = none →
        resolveCreateTimeout input = .ok 60) ∧
    (∀ n : Int, lookupField input "timeoutSeconds" = some (Value.vNum n) →
        resolveCreateTimeout input = .ok n) ∧
    (∀ m : String, resolveCreateTimeout input = .panicked m →
        (backupTask w rd sp input).1 = .panicked m) := by
  refine ⟨?_, ?_, ?_⟩
  · intro h; simp [resolveCreateTimeout, h]
  · intro n h; simp [resolveCreateTimeout, h, asNum]
  · intro m h; simp [backupTask, backupTaskBody, hbn, asString, h]

/-- Witness for C3: concrete request with `backupName` present and no
`timeoutSeconds`, resolving to the 60-second default. -/
theorem c3_timeout_resolution_witness :
    resolveCreateTimeout [("backupName", Value.vStr "db1")] = .ok 60 :=
  (c3_timeout_resolution wOk "/backup-repo" "/backup-source"
    [("backupName", Value.vStr "db1")] "db1" (by decide)).1 rfl

/-- C4 (code bug): the directory checked and backed up is built from
the hardcoded literal `/backup-source`, not from the configured source
root: `backupTask` is entirely independent of the `sourcePath` global,
and with the source root configured as `/custom-data` the program still
stats and backs up `/backup-source/db1`. -/
theorem c4_source_root_ignored :
    (∀ (w : World) (rd sp1 sp2 : String) (input : InputData),
        backupTask w rd sp1 input = backupTask w rd sp2 input) ∧
    (backupTask wOk "/backup-repo" "/custom-data"
        [("backupName", Value.vStr "db1")]).2
      = [Event.lock, Event.shell "restic -r /backup-repo unlock",
         Event.stat "/backup-source/db1",
         Event.shellTimeout 60 "restic backup /backup-source/db1 -r /backup-repo",
         Event.unlock] :=
  ⟨fun _ _ _ _ _ => rfl, by decide⟩

/-- C5: if the identifier captured from the `restic forget` output
differs from the requested `dataID`, `deleteBackup` fails with the
identifier-mismatch error and returns no success; it succeeds exactly
when the captured identifier equals the requested one. -/
theorem c5_identifier_check (w : World) (rd dataID out rid : String)
    (hout : w.exec ("restic forget " ++ dataID ++ " -r " ++ rd) = Except.ok out)
    (hcap : findStringSubmatchRemoved out = some rid) :
    (rid ≠ dataID →
       (deleteBackup w rd dataID).1
         = .err ("Returned id from forget is different from requested. "
                 ++ rid ++ " != " ++ dataID)) ∧
    (rid = dataID → (deleteBackup w rd dataID).1 = .ok ()) := by
  constructor
  · intro hne; simp [deleteBackup, hout, hcap, hne]
  · intro heq; simp [deleteBackup, hout, hcap, heq]

/-- Witness for C5: requesting removal of `a1b2c3d` while the engine
reports removal of `zzzzzzz` yields the mismatch error. -/
theorem c5_identifier_check_witness :
    (deleteBackup wForgetMismatch "/backup-repo" "a1b2c3d").1
      = .err ("Returned id from forget is different from requested. "
              ++ "zzzzzzz" ++ " != " ++ "a1b2c3d") :=
  (c5_identifier_check wForgetMismatch "/backup-repo" "a1b2c3d"
    "removed snapshot zzzzzzz" "zzzzzzz" rfl (by decide)).1 (by decide)

/-- C6: a backup request with `backupName` bound to a string, a
resolvable timeout, a successful unlock, an existing source directory
and engine output containing a well-formed `snapshot <id> saved` line
succeeds, returning `dataId` equal to the captured identifier and the
(hardcoded, non-negative) `dataSizeMB` of 111. -/
theorem c6_backup_success (w : World) (rd sp bn g out u : String)
    (input : InputData) (tsec : Int)
    (hbn : lookupField input "backupName" = some (Value.vStr bn))
    (hts : resolveCreateTimeout input = .ok tsec)
    (hunlock : w.exec ("restic -r " ++ rd ++ " unlock") = Except.ok u)
    (hdir : w.dirExists ("/backup-source/" ++ bn) = true)
    (hout : w.execTimeout tsec
        ("restic backup " ++ ("/backup-source/" ++ bn) ++ " -r " ++ rd)
      = Except.ok out)
    (hcap : findStringSubmatchSaved out = some g) :
    (backupTask w rd sp input).1
      = .ok ⟨[("dataId", Value.vStr g), ("dataSizeMB", Value.vNum 111)],
             "COMPLETED"⟩ ∧
    (0 : Int) ≤ 111 := by
  refine ⟨?_, by norm_num⟩
  simp [backupTask, backupTaskBody, hbn, asString, hts, hunlock,
        createNewBackup, hdir, hout, hcap]

/-- Witness for C6: the spec's concrete scenario — request
`backupName = db1`, engine output `snapshot a1b2c3d saved`. -/
theorem c6_backup_success_witness :
    (backupTask wOk "/backup-repo" "/backup-source"
        [("backupName", Value.vStr "db1")]).1
      = .ok ⟨[("dataId", Value.vStr "a1b2c3d"), ("dataSizeMB", Value.vNum 111)],
             "COMPLETED"⟩ :=
  (c6_backup_success wOk "/backup-repo" "/backup-source" "db1" "a1b2c3d"
    "snapshot a1b2c3d saved" "" [("backupName", Value.vStr "db1")] 60
    (by decide) rfl rfl rfl rfl (by decide)).1

/-- C7: a backup request with no `backupName` field fails with the
missing-field error, and the trace shows no shell command was run —
neither the unlock call nor the engine's backup call. -/
theorem c7_missing_backup_name (w : World) (rd sp : String) (input : InputData)
    (h : lookupField input "backupName" = none) :
    (backupTask w rd sp input).1 = .err "'backupName' is required as Input data" ∧
    (backupTask w rd sp input).2 = [Event.lock, Event.unlock] := by
  constructor <;> simp [backupTask, backupTaskBody, h]

/-- Witness for C7: the empty input payload. -/
theorem c7_missing_backup_name_witness :
    (backupTask wOk "/backup-repo" "/backup-source" []).1
      = .err "'backupName' is required as Input data" :=
  (c7_missing_backup_name wOk "/backup-repo" "/backup-source" [] rfl).1

/-- C8: when the source directory for the request's `backupName` does
not exist, no time-bounded engine call (the backup-creation call) ever
appears in the trace, and — provided the timeout resolves and the
unlock call succeeds, the steps that precede the check — the operation
fails with the source-not-found error. -/
theorem c8_source_not_found (w : World) (rd sp bn : String) (input : InputData)
    (hbn : lookupField input "backupName" = some (Value.vStr bn))
    (hdir : w.dirExists ("/backup-source/" ++ bn) = false) :
    (∀ (t : Int) (c : String),
        Event.shellTimeout t c ∉ (backupTask w rd sp input).2) ∧
    (∀ (tsec : Int) (u : String), resolveCreateTimeout input = .ok tsec →
        w.exec ("restic -r " ++ rd ++ " unlock") = Except.ok u →
        (backupTask w rd sp input).1
          = .err ("Source backup dir " ++ ("/backup-source/" ++ bn)
                  ++ " doesn't exist")) := by
  constructor
  · intro t c
    cases hres : resolveCreateTimeout input with
    | err m => simp [backupTask, backupTaskBody, hbn, asString, hres]
    | panicked m => simp [backupTask, backupTaskBody, hbn, asString, hres]
    | ok tsec =>
      cases hex : w.exec ("restic -r " ++ rd ++ " unlock") with
      | error e => simp [backupTask, backupTaskBody, hbn, asString, hres, hex]
      | ok u =>
        simp [backupTask, backupTaskBody, hbn, asString, hres, hex,
              createNewBackup, hdir]
  · intro tsec u hres hex
    simp [backupTask, backupTaskBody, hbn, asString, hres, hex,
          createNewBackup, hdir]

/-- Witness for C8: request `backupName = db1` in an environment with
no source directories. -/
theorem c8_source_not_found_witness :
    (backupTask wNoDir "/backup-repo" "/backup-source"
        [("backupName", Value.vStr "db1")]).1
      = .err ("Source backup dir " ++ ("/backup-source/" ++ "db1")
              ++ " doesn't exist") :=
  (c8_source_not_found wNoDir "/backup-repo" "/backup-source" "db1"
    [("backupName", Value.vStr "db1")] (by decide) rfl).2 60 "" rfl rfl

/-- C9: every operation that takes the repository guard — backup,
remove, and repository initialization — acquires it as its first step
and leaves it free on every exit path (returns, errors and panics
alike, since the release is deferred), so the next operation can
acquire it. -/
theorem c9_guard_released (w : World) (rd sp : String) (input : InputData) :
    (backupTask w rd sp input).2.head? = some Event.lock ∧
    lockedAfter false (backupTask w rd sp input).2 = false ∧
    (removeTask w rd input).2.head? = some Event.lock ∧
    lockedAfter false (removeTask w rd input).2 = false ∧
    (initRepo w rd).2.head? = some Event.lock ∧
    lockedAfter false (initRepo w rd).2 = false := by
  refine ⟨rfl, ?_, rfl, ?_, rfl, ?_⟩ <;>
    simp [backupTask, removeTask, initRepo, lockedAfter, lockedAfter_append_unlock]

/-- C10: a required field that is present but bound to a non-string
value is not rejected with a typed missing-field error: the unchecked
`.(string)` type assertion panics, for `backupName` on the backup task
and for `dataId` on the remove task. -/
theorem c10_nonstring_field_panics (w : World) (rd sp : String)
    (input : InputData) (v : Value)
    (hv : ∀ s : String, v ≠ Value.vStr s) :
    (lookupField input "backupName" = some v →
       (backupTask w rd sp input).1
         = .panicked "interface conversion: value is not a string") ∧
    (∀ bn : String, lookupField input "backupName" = some (Value.vStr bn) →
       lookupField input "dataId" = some v →
       (removeTask w rd input).1
         = .panicked "interface conversion: value is not a string") := by
  have hAs : asString v = .panicked "interface conversion: value is not a string" := by
    cases v with
    | vStr s => exact absurd rfl (hv s)
    | vNum n => rfl
    | vBool b => rfl
  constructor
  · intro h; simp [backupTask, backupTaskBody, h, hAs]
  · intro bn h1 h2; simp [removeTask, removeTaskBody, h1, h2, hAs, asString]

/-- Witness for C10: `backupName` bound to the number 5, and `dataId`
bound to a boolean. -/
theorem c10_nonstring_field_panics_witness :
    (backupTask wOk "/backup-repo" "/backup-source"
        [("backupName", Value.vNum 5)]).1
      = .panicked "interface conversion: value is not a string" ∧
    (removeTask wOk "/backup-repo"
        [("backupName", Value.vStr "db1"), ("dataId", Value.vBool true)]).1
      = .panicked "interface conversion: value is not a string" := by
  constructor
  · exact (c10_nonstring_field_panics wOk "/backup-repo" "/backup-source"
      [("backupName", Value.vNum 5)] (Value.vNum 5)
      (fun s h => Value.noConfusion h)).1 rfl
  · exact (c10_nonstring_field_panics wOk "/backup-repo" "/backup-source"
      [("backupName", Value.vStr "db1"), ("dataId", Value.vBool true)]
      (Value.vBool true) (fun s h => Value.noConfusion h)).2 "db1" rfl rfl

end BacktorRestic
